import Mathlib

/-
Verification of the accident risk classification pipeline of the Chatbot
repository.  The pipeline exists in two variants in the source:

* `src/LangGraphScripts/accident_engine.py` (class `AccidentDecisionEngine`),
  embedded below in namespace `Engine`;
* `src/학습/랭그래프_학습/1.합의처리_Agent_예제.py` (module-level functions),
  embedded below in namespace `Agent`.

Python dicts are modelled as insertion-ordered association lists
(`Dict := List (String × String)`); `dict.get` is first-match lookup,
`dict.setdefault` appends at the end when the key is absent.  The external
text-generation collaborator (`llm.invoke`) is modelled as an optional
function returning `Except`: `Except.error` models a raised exception, and a
pipeline stage that does not catch it propagates it, exactly as the Python
code does.  The regex post-filter over the forbidden directive patterns is
modelled by a small matcher covering exactly the constructs these patterns
use: literal runs, `\b` word boundaries and `\s*` gaps, with Python's
leftmost, non-overlapping single-pass `re.sub` semantics.
-/

namespace Chatbot

/-- Association-list model of a Python `dict` with string keys and values,
preserving insertion order. -/
abbrev Dict := List (String × String)

/-- First-match lookup: Python `d.get(k)` (`none` models Python `None`). -/
def lookup? : Dict → String → Option String
  | [], _ => none
  | (k, v) :: t, key => if k = key then some v else lookup? t key

/-- Python `k in d`. -/
def hasKey (d : Dict) (k : String) : Bool :=
  (lookup? d k).isSome

/-- Python `d.setdefault(k, v)`: insert `(k, v)` at the end iff `k` is absent. -/
def setdefault (d : Dict) (k v : String) : Dict :=
  if hasKey d k then d else d ++ [(k, v)]

/-- Left-biased choice on optional values (used to state lookup lemmas). -/
def oElse : Option String → Option String → Option String
  | some v, _ => some v
  | none, b => b

/-- The LangGraph `State` (`TypedDict, total=False`).  Fields that the Python
state may leave absent are modelled with the defaults the code supplies on
read (`state.get("flags_red", [])` etc.). -/
structure State where
  facts : Dict := []
  flags_red : List String := []
  flags_yellow : List String := []
  risk_score : Nat := 0
  risk_bucket : String := ""
  explanation_md : String := ""
  followup_questions : List String := []
  final_answer : String := ""
  deriving Inhabited, Repr, DecidableEq

/-- The external text-generation collaborator: `llm.invoke([system, human])`,
taking the system and human message contents.  `Except.error` models a raised
exception (timeout, auth, quota, ...). -/
abbrev LLM := String → String → Except String String

/-- Extract the success state of a pipeline run (`default` on error). -/
def okState (r : Except String State) : State :=
  match r with
  | .ok s => s
  | .error _ => default

/-- Whether a pipeline run completed without a propagated exception. -/
def isOkE (r : Except String State) : Bool :=
  match r with
  | .ok _ => true
  | .error _ => false

/-! ### Regex model for the forbidden directive patterns

The forbidden patterns use only three constructs: Korean literal runs,
`\b` word boundaries, and `\s*` gaps inside the compound patterns
(`보험\s*처리\s*하세요` etc.).  `re.sub(pat, "", text)` is a single
left-to-right pass replacing non-overlapping leftmost matches. -/

/-- One regex atom of the forbidden-pattern sublanguage. -/
inductive RAtom where
  /-- a literal character run -/
  | lit : List Char → RAtom
  /-- the zero-width word boundary `\b` -/
  | wb : RAtom
  /-- the greedy whitespace gap `\s*` -/
  | ws : RAtom
  deriving Repr, DecidableEq

/-- A pattern is a sequence of atoms. -/
abbrev RPat := List RAtom

/-- Python `\w` restricted to the character classes occurring here:
ASCII alphanumerics, underscore, and Hangul syllables/jamo. -/
def isWordChar (c : Char) : Bool :=
  c.isAlphanum || c == '_' ||
    (0xAC00 ≤ c.toNat && c.toNat ≤ 0xD7A3) ||
    (0x1100 ≤ c.toNat && c.toNat ≤ 0x11FF) ||
    (0x3130 ≤ c.toNat && c.toNat ≤ 0x318F)

/-- Python `\s` (ASCII part, which is all that can occur between the
Korean literals here). -/
def isSpaceChar (c : Char) : Bool :=
  c == ' ' || c == '\t' || c == '\n' || c == '\r' || c == '\x0b' || c == '\x0c'

/-- Is the character at index `i` (if any) a word character? -/
def isWordAt (s : List Char) (i : Nat) : Bool :=
  match s[i]? with
  | some c => isWordChar c
  | none => false

/-- `\b` holds at position `i` iff word-ness differs between the previous and
the current character (outside the string counts as non-word). -/
def atBoundary (s : List Char) (i : Nat) : Bool :=
  (if i = 0 then false else isWordAt s (i - 1)) != isWordAt s i

/-- Does the literal `l` occur at index `i` of `s`? -/
def litAt (s : List Char) (i : Nat) (l : List Char) : Bool :=
  (s.drop i).take l.length == l

/-- Length of the maximal whitespace run at index `i` (greedy `\s*`;
deterministic because every following atom starts with a non-space literal). -/
def wsRun (s : List Char) (i : Nat) : Nat :=
  ((s.drop i).takeWhile isSpaceChar).length

/-- Match the pattern at position `i`; returns the end position on success. -/
def matchAt (s : List Char) : RPat → Nat → Option Nat
  | [], i => some i
  | .wb :: r, i => if atBoundary s i then matchAt s r i else none
  | .ws :: r, i => matchAt s r (i + wsRun s i)
  | .lit l :: r, i => if litAt s i l then matchAt s r (i + l.length) else none

/-- Leftmost match search from position `i` (fuel-driven scan over the at most
`s.length + 1` candidate start positions). -/
def findFrom (p : RPat) (s : List Char) : Nat → Nat → Option (Nat × Nat)
  | 0, _ => none
  | fuel + 1, i =>
    if s.length < i then none
    else
      match matchAt s p i with
      | some e => some (i, e)
      | none => findFrom p s fuel (i + 1)

/-- `re.search(p, s)` as a leftmost match (start, end). -/
def findMatch (p : RPat) (s : List Char) : Option (Nat × Nat) :=
  findFrom p s (s.length + 1) 0

/-- The replacement loop of `re.sub(p, "", s)` from position `i`: keep the
text up to the leftmost match, drop the match, continue after it.  Every
forbidden pattern consumes at least one character, so `s.length + 1` rounds
of fuel always suffice. -/
def subGo (p : RPat) (s : List Char) : Nat → Nat → List Char
  | 0, i => s.drop i
  | fuel + 1, i =>
    match findFrom p s (s.length + 1) i with
    | none => s.drop i
    | some (b, e) => (s.drop i).take (b - i) ++ subGo p s fuel e

/-- Python `re.sub(p, "", s)`. -/
def reSub (p : RPat) (s : List Char) : List Char :=
  subGo p s (s.length + 1) 0

namespace Engine

/-- `AccidentDecisionEngine.forbidden_patterns`, in declaration order. -/
def forbidden_patterns : List RPat :=
  [ [.wb, .lit "하세요".data, .wb],
    [.wb, .lit "하셔야".data, .wb],
    [.wb, .lit "권장".data, .wb],
    [.wb, .lit "반드시".data, .wb],
    [.wb, .lit "무조건".data, .wb],
    [.wb, .lit "추천".data, .wb],
    [.wb, .lit "필수".data, .wb],
    [.lit "보험".data, .ws, .lit "처리".data, .ws, .lit "하세요".data] ]

/-- The post-filter loop of `_llm_explain_node`:
`for pat in self.forbidden_patterns: text = re.sub(pat, "", text)`. -/
def stripForbidden (t : String) : String :=
  ⟨forbidden_patterns.foldl (fun acc p => reSub p acc) t.data⟩

/-- Does `text` contain a match of some declared forbidden pattern? -/
def containsForbidden (t : String) : Bool :=
  forbidden_patterns.any (fun p => (findMatch p t.data).isSome)

/-- The RED rule chain of `_rule_score_node`, in source order.  Each matching
membership test appends exactly one label. -/
def engineRed (f : Dict) : List String :=
  (if lookup? f "injury" == some "애매" || lookup? f "injury" == some "있음" then
    ["인명피해 가능성"] else [])
  ++ ((if lookup? f "pain_now" == some "지속" || lookup? f "pain_now" == some "악화" then
    ["통증 지속/악화"] else [])
  ++ ((if lookup? f "hospital_visit" == some "예정" || lookup? f "hospital_visit" == some "완료" then
    ["병원 방문/예정"] else [])
  ++ ((if lookup? f "opponent_mentions_hospital" == some "예" then
    ["상대가 병원/통증 가능성 언급"] else [])
  ++ ((if lookup? f "opponent_mentions_insurance" == some "예" then
    ["상대가 보험 처리 언급/요구"] else [])
  ++ ((if lookup? f "evidence" == some "없음" then
    ["증거 부족(사진/블박 없음)"] else [])
  ++ (if lookup? f "vehicle_damage" == some "찌그러짐" || lookup? f "vehicle_damage" == some "파손"
        || lookup? f "vehicle_damage" == some "불명" then
    ["손상 범위 불명확 또는 중대 가능"] else []))))))

/-- The YELLOW rule chain of `_rule_score_node`, in source order. -/
def engineYellow (f : Dict) : List String :=
  (if lookup? f "adas_sensor" == some "있음" || lookup? f "adas_sensor" == some "불명" then
    ["센서/ADAS 영향 가능(있음/불명)"] else [])
  ++ ((if lookup? f "vehicle_type" == some "수입" || lookup? f "vehicle_type" == some "전기차" then
    ["수리비 변동성 큰 차종(수입/전기차)"] else [])
  ++ ((if lookup? f "opponent_attitude" == some "애매" || lookup? f "opponent_attitude" == some "공격적" then
    ["상대 태도(애매/공격적)로 분쟁 리스크"] else [])
  ++ ((if lookup? f "speed" == some "불명" then
    ["충돌 강도 불명"] else [])
  ++ (if lookup? f "evidence" == some "일부" then
    ["증거 일부만 확보"] else []))))

/-- `_rule_score_node`: sets both flag lists and
`risk_score = len(red) * 100 + len(yellow) * 10`. -/
def rule_score_node (s : State) : State :=
  let red := engineRed s.facts
  let yellow := engineYellow s.facts
  { s with flags_red := red, flags_yellow := yellow,
           risk_score := red.length * 100 + yellow.length * 10 }

/-- `_risk_bucket_node`: first red wins, else two yellows, else GREEN. -/
def risk_bucket_node (s : State) : State :=
  if s.flags_red.length ≥ 1 then { s with risk_bucket := "RED" }
  else if s.flags_yellow.length ≥ 2 then { s with risk_bucket := "YELLOW" }
  else { s with risk_bucket := "GREEN" }

/-- Python `repr` of a string dict, as interpolated into the LLM prompt. -/
def dictRepr (d : Dict) : String :=
  "\x7b" ++ String.intercalate ", "
    (d.map (fun p => "\x27" ++ p.1 ++ "\x27: \x27" ++ p.2 ++ "\x27")) ++ "\x7d"

/-- `_llm_explain_node`.  With no LLM it writes the deterministic fallback.
With an LLM it invokes it and post-filters; the source has no `try/except`
around `self.llm.invoke`, so a raised error propagates (`Except.error`). -/
def llm_explain_node (llm : Option LLM) (s : State) : Except String State :=
  match llm with
  | none => .ok { s with explanation_md := "판단 등급: " ++ s.risk_bucket }
  | some g =>
    match g "지시형 결론 없이 상황의 리스크 요소만 설명하라."
            ("상황: " ++ dictRepr s.facts ++ "\n등급: " ++ s.risk_bucket) with
    | .error e => .error e
    | .ok text => .ok { s with explanation_md := (stripForbidden text).trim }

/-- `_need_questions_condition`: route to the questions node iff the bucket is
not GREEN and some fact value is the sentinel `"불명"`. -/
def need_questions_condition (s : State) : Bool :=
  (s.risk_bucket != "GREEN") && !(s.facts.filter (fun p => p.2 == "불명")).isEmpty

/-- The canned per-field question template of `_llm_questions_node`. -/
def engineQuestion (field : String) : String :=
  "\x27" ++ field ++ "\x27 항목이 \x27불명\x27입니다. 정확한 상황을 확인해 보시겠습니까?"

/-- `_llm_questions_node`: one templated question for each of the first **2**
unknown fields, in dict insertion order (`unknown_fields[:2]`). -/
def llm_questions_node (s : State) : State :=
  let unknown_fields := (s.facts.filter (fun p => p.2 == "불명")).map (fun p => p.1)
  { s with followup_questions := (unknown_fields.take 2).map engineQuestion }

/-- The `bucket_emoji` dict of `_compose_node` (with the `.get` default). -/
def bucket_emoji (b : String) : String :=
  if b = "RED" then "🔴 RED"
  else if b = "YELLOW" then "🟡 YELLOW"
  else if b = "GREEN" then "🟢 GREEN"
  else b

/-- `_compose_node`: deterministic final text assembly. -/
def compose_node (s : State) : State :=
  let res := "### 🚦 리스크 상태: " ++ bucket_emoji s.risk_bucket ++ "\n\n"
      ++ "**[분석 요약]**\n" ++ s.explanation_md ++ "\n\n"
  let res := if s.flags_red.isEmpty then res
    else res ++ "**🚨 감지된 위험:** " ++ String.intercalate ", " s.flags_red ++ "\n"
  let res := if s.followup_questions.isEmpty then res
    else res ++ "\n---\n**❓ 추가 확인 권장 사항:**\n- "
      ++ String.intercalate "\n- " s.followup_questions
  { s with final_answer := res }

/-- `run_analysis`: the compiled graph.  The `normalize` node is the identity
(`lambda s: s`); the single conditional edge sits after `explain`. -/
def run_analysis (llm : Option LLM) (facts : Dict) : Except String State :=
  let s1 : State := { facts := facts }
  let s2 := rule_score_node s1
  let s3 := risk_bucket_node s2
  match llm_explain_node llm s3 with
  | .error e => .error e
  | .ok s4 =>
    let s5 := if need_questions_condition s4 then llm_questions_node s4 else s4
    .ok (compose_node s5)

end Engine

namespace Agent

/-- `DEFAULTS`: the fixed attribute set with its sentinel values, in source
order.  Every key defaults to `"불명"` except the free-text `notes`. -/
def DEFAULTS : Dict :=
  [ ("accident_type", "불명"),
    ("speed", "불명"),
    ("injury", "불명"),
    ("pain_now", "불명"),
    ("hospital_visit", "불명"),
    ("vehicle_damage", "불명"),
    ("adas_sensor", "불명"),
    ("vehicle_type", "불명"),
    ("evidence", "불명"),
    ("opponent_attitude", "불명"),
    ("opponent_mentions_hospital", "불명"),
    ("opponent_mentions_insurance", "불명"),
    ("notes", "") ]

/-- `normalize_extract` on the facts dict:
`for k, v in DEFAULTS.items(): facts.setdefault(k, v)`. -/
def normalize_extract (facts : Dict) : Dict :=
  DEFAULTS.foldl (fun a p => setdefault a p.1 p.2) facts

/-- The `normalize` graph node. -/
def normalize_node (s : State) : State :=
  { s with facts := normalize_extract s.facts }

/-- `FORBIDDEN_IMPERATIVES`, in declaration order (this list also contains
`\b결론\b` and `개인\s*합의\s*하세요`, unlike the engine variant). -/
def FORBIDDEN_IMPERATIVES : List RPat :=
  [ [.wb, .lit "하세요".data, .wb],
    [.wb, .lit "하셔야".data, .wb],
    [.wb, .lit "권장".data, .wb],
    [.wb, .lit "반드시".data, .wb],
    [.wb, .lit "무조건".data, .wb],
    [.wb, .lit "추천".data, .wb],
    [.wb, .lit "필수".data, .wb],
    [.wb, .lit "결론".data, .wb],
    [.lit "보험".data, .ws, .lit "처리".data, .ws, .lit "하세요".data],
    [.lit "개인".data, .ws, .lit "합의".data, .ws, .lit "하세요".data] ]

/-- `contains_imperative`. -/
def contains_imperative (t : String) : Bool :=
  FORBIDDEN_IMPERATIVES.any (fun p => (findMatch p t.data).isSome)

/-- `safe_strip_imperatives`. -/
def safe_strip_imperatives (t : String) : String :=
  ⟨FORBIDDEN_IMPERATIVES.foldl (fun acc p => reSub p acc) t.data⟩

/-- The RED rule chain of `rule_score`, in source order.  The source indexes
`f["injury"]` etc.; after normalization every key is present, so the lookup
is modelled as first-match lookup. -/
def agentRed (f : Dict) : List String :=
  (if lookup? f "injury" == some "애매" || lookup? f "injury" == some "있음" then
    ["인명피해/통증 가능성(‘애매/있음’)"] else [])
  ++ ((if lookup? f "pain_now" == some "지속" || lookup? f "pain_now" == some "악화" then
    ["통증 지속/악화"] else [])
  ++ ((if lookup? f "hospital_visit" == some "예정" || lookup? f "hospital_visit" == some "완료" then
    ["병원 방문/예정"] else [])
  ++ ((if lookup? f "opponent_mentions_hospital" == some "예" then
    ["상대가 병원/통증 가능성 언급"] else [])
  ++ ((if lookup? f "opponent_mentions_insurance" == some "예" then
    ["상대가 보험 처리 언급/요구"] else [])
  ++ ((if lookup? f "evidence" == some "없음" then
    ["증거 부족(사진/블박 없음)"] else [])
  ++ (if lookup? f "vehicle_damage" == some "찌그러짐" || lookup? f "vehicle_damage" == some "파손"
        || lookup? f "vehicle_damage" == some "불명" then
    ["손상 범위 불명확 또는 중대 가능"] else []))))))

/-- The YELLOW rule chain of `rule_score`, in source order. -/
def agentYellow (f : Dict) : List String :=
  (if lookup? f "adas_sensor" == some "있음" || lookup? f "adas_sensor" == some "불명" then
    ["센서/ADAS 영향 가능(있음/불명)"] else [])
  ++ ((if lookup? f "vehicle_type" == some "수입" || lookup? f "vehicle_type" == some "전기차" then
    ["수리비 변동성 큰 차종(수입/전기차)"] else [])
  ++ ((if lookup? f "opponent_attitude" == some "애매" || lookup? f "opponent_attitude" == some "공격적" then
    ["상대 태도(애매/공격적)로 분쟁 리스크"] else [])
  ++ ((if lookup? f "speed" == some "불명" then
    ["충돌 강도 불명"] else [])
  ++ (if lookup? f "evidence" == some "일부" then
    ["증거 일부만 확보"] else []))))

/-- `rule_score`: flags plus `risk_score = len(red) * 100 + len(yellow) * 10`. -/
def rule_score (s : State) : State :=
  let red := agentRed s.facts
  let yellow := agentYellow s.facts
  { s with flags_red := red, flags_yellow := yellow,
           risk_score := red.length * 100 + yellow.length * 10 }

/-- `risk_bucket` node: first red wins, else two yellows, else GREEN. -/
def risk_bucket (s : State) : State :=
  if s.flags_red.length ≥ 1 then { s with risk_bucket := "RED" }
  else if s.flags_yellow.length ≥ 2 then { s with risk_bucket := "YELLOW" }
  else { s with risk_bucket := "GREEN" }

/-- The markdown fallback of `llm_explain` when no LLM is available. -/
def agent_fallback_md (s : State) : String :=
  let f := s.facts
  let positives : List String :=
    (if lookup? f "injury" == some "없음" then ["인명피해/통증 신호 없음"] else [])
    ++ ((if lookup? f "pain_now" == some "없음" then ["현재 통증 없음"] else [])
    ++ ((if lookup? f "hospital_visit" == some "없음" then ["병원 방문 계획/이력 없음"] else [])
    ++ ((if lookup? f "evidence" == some "충분" then ["증거 충분(사진/블박 등)"] else [])
    ++ (if lookup? f "vehicle_damage" == some "없음" || lookup? f "vehicle_damage" == some "스크래치" then
      ["손상 범위가 외관 수준일 가능성"] else []))))
  let md : List String :=
    [ "🚦 판단 상태: **" ++ s.risk_bucket ++ "** (결정이 아닌 리스크 신호등)",
      "",
      "✅ 확인된 긍정 신호",
      "- " ++ (if positives.isEmpty then "정보가 부족하여 추가 확인 필요"
               else String.intercalate ", " positives),
      "",
      "⚠️ 감지된 위험 신호" ]
    ++ (if s.flags_red.isEmpty then [] else ["- 🔴 " ++ String.intercalate "; " s.flags_red])
    ++ (if s.flags_yellow.isEmpty then [] else ["- 🟡 " ++ String.intercalate "; " s.flags_yellow])
    ++ (if s.flags_red.isEmpty && s.flags_yellow.isEmpty then ["- 특이 위험 신호 없음"] else [])
    ++ [ "",
         "📌 참고",
         "- 본 결과는 일반적인 판단 보조 정보이며, 최종 선택과 책임은 사용자에게 있습니다." ]
  String.intercalate "\n" md

/-- The system prompt of `llm_explain`. -/
def explainSystemMsg : String :=
  "너는 교통사고 처리의 \x27결정\x27을 내리지 않는 보조자다.\n"
  ++ "- 절대 \x27보험 처리하세요/개인 합의하세요\x27 같은 지시형 결론을 말하지 마라.\n"
  ++ "- 반드시 bucket(RED/YELLOW/GREEN)과 flags를 그대로 근거로 삼아 설명만 해라.\n"
  ++ "- 출력 포맷(마크다운):\n"
  ++ "  1) 🚦 판단 상태(신호등) 2) ✅ 긍정 신호 3) ⚠️ 위험 신호\n"
  ++ "  4) 🧾 개인합의 시 필수 기록 5) 🔁 보험 전환 트리거\n"
  ++ "  6) 📌 최종 선택은 사용자 책임\n"

/-- Python `repr` of a list of strings, as interpolated into prompts. -/
def listRepr (l : List String) : String :=
  "[" ++ String.intercalate ", " (l.map (fun x => "\x27" ++ x ++ "\x27")) ++ "]"

/-- The human prompt of `llm_explain`. -/
def explainHumanMsg (s : State) : String :=
  "[facts]\n" ++ Engine.dictRepr s.facts ++ "\n\n"
  ++ "[bucket]\n" ++ s.risk_bucket ++ "\n\n"
  ++ "[red_flags]\n" ++ listRepr s.flags_red ++ "\n\n"
  ++ "[yellow_flags]\n" ++ listRepr s.flags_yellow ++ "\n\n"
  ++ "위 정보를 바탕으로, 지시형 결론 없이 설명만 작성해라."

/-- `llm_explain`: markdown fallback without an LLM; with an LLM, invoke it
(a raised error is not caught and propagates), then weakly strip imperative
phrasing when present. -/
def llm_explain (llm : Option LLM) (s : State) : Except String State :=
  match llm with
  | none => .ok { s with explanation_md := agent_fallback_md s }
  | some g =>
    match g explainSystemMsg (explainHumanMsg s) with
    | .error e => .error e
    | .ok text =>
      let text := if contains_imperative text then safe_strip_imperatives text else text
      .ok { s with explanation_md := text.trim }

/-- The keys of `facts` currently holding the sentinel `"불명"`, in dict
order (`[k for k, v in f.items() if v == "불명"]`). -/
def unknown_keys (f : Dict) : List String :=
  (f.filter (fun p => p.2 == "불명")).map (fun p => p.1)

/-- `need_questions`: not GREEN and at least one unknown field. -/
def need_questions (s : State) : Bool :=
  (s.risk_bucket != "GREEN") && !(unknown_keys s.facts).isEmpty

/-- The fixed priority ordering of `llm_questions` (note: it contains neither
`accident_type` nor `notes`). -/
def priority : List String :=
  [ "injury", "pain_now", "hospital_visit",
    "opponent_mentions_hospital", "opponent_mentions_insurance",
    "vehicle_damage", "evidence", "adas_sensor", "vehicle_type",
    "opponent_attitude", "speed" ]

/-- `targets = [k for k in priority if k in unknowns][:3]`. -/
def targets_of (f : Dict) : List String :=
  (priority.filter (fun k => (unknown_keys f).contains k)).take 3

/-- The canned per-field question table (fallback path of `llm_questions`). -/
def qmap : Dict :=
  [ ("injury", "몸 상태는 어떤가요? (없음/애매/있음)"),
    ("pain_now", "현재 통증은 어떤가요? (없음/경미/지속/악화)"),
    ("hospital_visit", "병원 방문 계획이나 진료가 있었나요? (없음/예정/완료)"),
    ("opponent_mentions_hospital", "상대가 병원/통증 가능성을 언급했나요? (아니오/예)"),
    ("opponent_mentions_insurance", "상대가 보험처리를 언급하거나 요구했나요? (아니오/예)"),
    ("vehicle_damage", "차량 손상은 어느 정도인가요? (없음/스크래치/찌그러짐/파손)"),
    ("evidence", "사진/블랙박스 등 증거 확보 상태는? (충분/일부/없음)"),
    ("adas_sensor", "접촉 부위 주변에 주차센서/레이더/카메라 등이 있나요? (없음/있음)"),
    ("vehicle_type", "차종은? (국산/수입/전기차)"),
    ("opponent_attitude", "상대 태도는? (원만/애매/공격적)"),
    ("speed", "충돌 속도/강도는? (저속/중속/고속)") ]

/-- Python `line.strip("- ")`: remove leading and trailing `-` or space. -/
def stripDashSpace (l : String) : String :=
  ⟨((l.data.dropWhile (fun c => c == '-' || c == ' ')).reverse.dropWhile
      (fun c => c == '-' || c == ' ')).reverse⟩

/-- Line-wise parse of the LLM questions output: strip list markers and
whitespace, drop empty lines, keep at most 3. -/
def parse_question_lines (text : String) : List String :=
  (((text.splitOn "\n").map (fun l => (stripDashSpace l).trim)).filter
    (fun l => l != "")).take 3

/-- `llm_questions`: empty result when no priority field is unknown;
otherwise the canned questions for the targets (fallback) or up to 3 parsed
LLM lines (a raised LLM error propagates). -/
def llm_questions (llm : Option LLM) (s : State) : Except String State :=
  let targets := targets_of s.facts
  if targets.isEmpty then .ok { s with followup_questions := [] }
  else
    match llm with
    | none => .ok { s with followup_questions := targets.filterMap (lookup? qmap) }
    | some g =>
      match g ("너는 결론을 내리지 않는다. 질문만 만든다.\n- 불명(unknown) 값을 좁히는 질문을 최대 3개.\n- 예/아니오 또는 선택지형으로 짧게.\n- 금액 질문 금지.\n")
              ("unknown_fields=" ++ listRepr targets
                ++ "\ncurrent_facts=" ++ Engine.dictRepr s.facts ++ "\n질문을 최대 3개 생성해라.") with
      | .error e => .error e
      | .ok text => .ok { s with followup_questions := parse_question_lines text }

/-- `compose`: deterministic final text assembly (the questions section is
included only when non-empty). -/
def compose (s : State) : State :=
  let qs := s.followup_questions
  let lines : List String :=
    [ s.explanation_md,
      "",
      "—",
      "",
      "🧾 개인합의로 진행할 때 *공통 필수 기록*(권장)",
      "- 양 차량 번호판 포함 사진 + 접촉 부위 근접 사진 + 사고 위치 사진",
      "- 블랙박스 원본 보관(가능하면 별도 저장)",
      "- 문자/카톡으로 ‘인명피해 없음’ 및 ‘추가 청구 없음’ 상호 확인",
      "",
      "🔁 보험 전환 트리거(하나라도 발생하면 개인합의 리스크 급상승)",
      "- 통증/병원 언급 발생(당사자/상대 포함)",
      "- 수리비가 예상보다 커짐(센서/범퍼 내부/도색 범위 확대 등)",
      "- 상대 태도 변화(기록 거부, 과실 다툼, 과도한 요구)",
      "- 증거(사진/블박) 부족 또는 분실",
      "" ]
    ++ (if qs.isEmpty then []
        else ["❓ 추가 확인 질문(답하면 판단 정확도↑)"] ++ qs.map (fun q => "- " ++ q) ++ [""])
    ++ ["📌 본 내용은 일반적인 판단 보조 정보이며, 최종 선택과 책임은 사용자에게 있습니다."]
  { s with final_answer := String.intercalate "\n" lines }

/-- The compiled study-script graph on an input facts dict:
normalize → rules → bucket → explain → (conditional questions) → compose. -/
def app_invoke (llm : Option LLM) (facts : Dict) : Except String State :=
  let s1 := normalize_node { facts := facts }
  let s2 := rule_score s1
  let s3 := risk_bucket s2
  match llm_explain llm s3 with
  | .error e => .error e
  | .ok s4 =>
    if need_questions s4 then
      match llm_questions llm s4 with
      | .error e => .error e
      | .ok s5 => .ok (compose s5)
    else .ok (compose s4)

end Agent

/-! ### Spec-side definitions

These definitions follow the wording of the specification (predicate tables,
bucket policy, question selection); the theorems below compare them with the
definitions translated from the source. -/

/-- The bucket policy exactly as the spec words it, first match wins:
`|flags_red| ≥ 1 ⇒ RED`, else `|flags_yellow| ≥ 2 ⇒ YELLOW`, else GREEN. -/
def specBucket (red yellow : List String) : String :=
  if red.length ≥ 1 then "RED"
  else if yellow.length ≥ 2 then "YELLOW"
  else "GREEN"

/-- The spec's RED predicate table, in its declared order, with the engine's
labels: injury ∈ {애매, 있음}; pain_now ∈ {지속, 악화};
hospital_visit ∈ {예정, 완료}; opponent_mentions_hospital = 예;
opponent_mentions_insurance = 예; evidence = 없음;
vehicle_damage ∈ {찌그러짐, 파손, 불명}.  A value outside these sets
matches no predicate. -/
def specRedTable : List ((Dict → Bool) × String) :=
  [ (fun f => lookup? f "injury" == some "애매" || lookup? f "injury" == some "있음",
     "인명피해 가능성"),
    (fun f => lookup? f "pain_now" == some "지속" || lookup? f "pain_now" == some "악화",
     "통증 지속/악화"),
    (fun f => lookup? f "hospital_visit" == some "예정" || lookup? f "hospital_visit" == some "완료",
     "병원 방문/예정"),
    (fun f => lookup? f "opponent_mentions_hospital" == some "예",
     "상대가 병원/통증 가능성 언급"),
    (fun f => lookup? f "opponent_mentions_insurance" == some "예",
     "상대가 보험 처리 언급/요구"),
    (fun f => lookup? f "evidence" == some "없음",
     "증거 부족(사진/블박 없음)"),
    (fun f => lookup? f "vehicle_damage" == some "찌그러짐" || lookup? f "vehicle_damage" == some "파손"
        || lookup? f "vehicle_damage" == some "불명",
     "손상 범위 불명확 또는 중대 가능") ]

/-- The spec's RED predicate table with the study-script labels (the battery
and order are identical; only the first label text differs). -/
def specAgentRedTable : List ((Dict → Bool) × String) :=
  [ (fun f => lookup? f "injury" == some "애매" || lookup? f "injury" == some "있음",
     "인명피해/통증 가능성(‘애매/있음’)"),
    (fun f => lookup? f "pain_now" == some "지속" || lookup? f "pain_now" == some "악화",
     "통증 지속/악화"),
    (fun f => lookup? f "hospital_visit" == some "예정" || lookup? f "hospital_visit" == some "완료",
     "병원 방문/예정"),
    (fun f => lookup? f "opponent_mentions_hospital" == some "예",
     "상대가 병원/통증 가능성 언급"),
    (fun f => lookup? f "opponent_mentions_insurance" == some "예",
     "상대가 보험 처리 언급/요구"),
    (fun f => lookup? f "evidence" == some "없음",
     "증거 부족(사진/블박 없음)"),
    (fun f => lookup? f "vehicle_damage" == some "찌그러짐" || lookup? f "vehicle_damage" == some "파손"
        || lookup? f "vehicle_damage" == some "불명",
     "손상 범위 불명확 또는 중대 가능") ]

/-- The spec's YELLOW predicate table, in its declared order (labels agree in
both source variants): adas_sensor ∈ {있음, 불명};
vehicle_type ∈ {수입, 전기차}; opponent_attitude ∈ {애매, 공격적};
speed = 불명; evidence = 일부. -/
def specYellowTable : List ((Dict → Bool) × String) :=
  [ (fun f => lookup? f "adas_sensor" == some "있음" || lookup? f "adas_sensor" == some "불명",
     "센서/ADAS 영향 가능(있음/불명)"),
    (fun f => lookup? f "vehicle_type" == some "수입" || lookup? f "vehicle_type" == some "전기차",
     "수리비 변동성 큰 차종(수입/전기차)"),
    (fun f => lookup? f "opponent_attitude" == some "애매" || lookup? f "opponent_attitude" == some "공격적",
     "상대 태도(애매/공격적)로 분쟁 리스크"),
    (fun f => lookup? f "speed" == some "불명",
     "충돌 강도 불명"),
    (fun f => lookup? f "evidence" == some "일부",
     "증거 일부만 확보") ]

/-- Evaluate a predicate table on a facts dict: the matching rows' labels, in
table order. -/
def tableEval (T : List ((Dict → Bool) × String)) (f : Dict) : List String :=
  (T.filter (fun e => e.1 f)).map (fun e => e.2)

/-- The spec's score formula, stated over a finished pipeline result: on
success, `risk_score = 100·|flags_red| + 10·|flags_yellow|`. -/
def scoreInvariant (r : Except String State) : Bool :=
  match r with
  | .ok s => s.risk_score == 100 * s.flags_red.length + 10 * s.flags_yellow.length
  | .error _ => true

/-- The fallback branch of `_llm_explain_node` as a state transformer. -/
def engine_explain_none (s : State) : State :=
  { s with explanation_md := "판단 등급: " ++ s.risk_bucket }

/-- The conditional edge after `explain` in the engine graph, as a state
transformer. -/
def engine_questions_stage (s : State) : State :=
  if Engine.need_questions_condition s then Engine.llm_questions_node s else s

/-- Closed form of an `AccidentDecisionEngine.run_analysis` run with the
collaborator unavailable. -/
def engine_run_none (f : Dict) : State :=
  Engine.compose_node (engine_questions_stage (engine_explain_none
    (Engine.risk_bucket_node (Engine.rule_score_node { facts := f }))))

/-- The fallback branch of `llm_explain` as a state transformer. -/
def agent_explain_none (s : State) : State :=
  { s with explanation_md := Agent.agent_fallback_md s }

/-- The fallback branch of `llm_questions` as a state transformer. -/
def agent_questions_fallback (s : State) : State :=
  { s with followup_questions :=
      (Agent.targets_of s.facts).filterMap (lookup? Agent.qmap) }

/-- The conditional edge after `explain` in the study-script graph, as a
state transformer (collaborator unavailable). -/
def agent_questions_stage (s : State) : State :=
  if Agent.need_questions s then agent_questions_fallback s else s

/-- Closed form of the study-script stages after normalization, on an
arbitrary starting state, with the collaborator unavailable. -/
def agent_run_tail (s1 : State) : State :=
  Agent.compose (agent_questions_stage (agent_explain_none
    (Agent.risk_bucket (Agent.rule_score s1))))

/-- Closed form of a study-script run with the collaborator unavailable. -/
def agent_run_none (d : Dict) : State :=
  agent_run_tail (Agent.normalize_node { facts := d })

/-- The followup questions the study-script stages produce from a normalized
facts dict (collaborator unavailable). -/
def agent_followup_from (nf : Dict) : List String :=
  if specBucket (Agent.agentRed nf) (Agent.agentYellow nf) != "GREEN"
      && !(Agent.unknown_keys nf).isEmpty then
    (Agent.targets_of nf).filterMap (lookup? Agent.qmap)
  else []

/-- What the study-script pipeline actually produces as followup questions
(collaborator unavailable): nothing when the bucket is GREEN or no field is
unknown; otherwise one canned question per unknown field among the first
(up to) 3 unknown fields in the priority ordering — which is empty when the
only unknown fields are `accident_type`/`notes`. -/
def agent_followup_spec (d : Dict) : List String :=
  agent_followup_from (Agent.normalize_extract d)

/-- What the engine pipeline actually produces as followup questions
(collaborator unavailable): nothing when the bucket is GREEN or no field is
unknown; otherwise one templated question per unknown field among the first
**2** unknown fields in dict insertion order. -/
def engine_followup_spec (f : Dict) : List String :=
  if specBucket (Engine.engineRed f) (Engine.engineYellow f) != "GREEN"
      && !(f.filter (fun p => p.2 == "불명")).isEmpty then
    (((f.filter (fun p => p.2 == "불명")).map (fun p => p.1)).take 2).map Engine.engineQuestion
  else []

/-- Complete facts dict with exactly one red flag (injury = 있음) whose only
unknown field is `accident_type` — which the question priority list omits. -/
def qcexAgentFacts : Dict :=
  [ ("accident_type", "불명"), ("speed", "저속"), ("injury", "있음"),
    ("pain_now", "없음"), ("hospital_visit", "없음"), ("vehicle_damage", "없음"),
    ("adas_sensor", "없음"), ("vehicle_type", "국산"), ("evidence", "충분"),
    ("opponent_attitude", "원만"), ("opponent_mentions_hospital", "아니오"),
    ("opponent_mentions_insurance", "아니오"), ("notes", "") ]

/-- Facts dict with three unknown fields and two yellow flags, for the engine
question stage (which takes only the first 2 unknowns, in dict order). -/
def qcexEngineFacts : Dict :=
  [ ("speed", "불명"), ("adas_sensor", "불명"), ("vehicle_type", "불명") ]

/-! ### General lemmas about the dict model -/

theorem oElse_none_right (a : Option String) : oElse a none = a := by
  cases a <;> rfl

theorem oElse_assoc (a b c : Option String) :
    oElse (oElse a b) c = oElse a (oElse b c) := by
  cases a <;> rfl

theorem oElse_isSome (a b : Option String) :
    (oElse a b).isSome = (a.isSome || b.isSome) := by
  cases a <;> rfl

theorem lookup_append (d t : Dict) (k : String) :
    lookup? (d ++ t) k = oElse (lookup? d k) (lookup? t k) := by
  induction d with
  | nil => simp [lookup?, oElse]
  | cons p r ih =>
    obtain ⟨k₀, v₀⟩ := p
    by_cases h : k₀ = k <;> simp [lookup?, h, ih, oElse]

theorem lookup_isSome_of_mem {L : Dict} {k v : String} (h : (k, v) ∈ L) :
    (lookup? L k).isSome = true := by
  induction L with
  | nil => simp at h
  | cons p t ih =>
    obtain ⟨k₀, v₀⟩ := p
    rcases List.mem_cons.mp h with h₁ | h₂
    · obtain ⟨hk, _⟩ := Prod.mk.injEq .. ▸ h₁
      simp [lookup?, hk.symm]
    · by_cases hk : k₀ = k <;> simp [lookup?, hk, ih h₂]

theorem hasKey_eq_isSome (d : Dict) (k : String) :
    hasKey d k = (lookup? d k).isSome := rfl

/-- Behaviour of the `for k, v in L: d.setdefault(k, v)` loop on lookups:
the original bindings win, and keys absent from `d` get their first binding
in `L`. -/
theorem lookup_foldl_setdefault (L : Dict) :
    ∀ (d : Dict) (k : String),
      lookup? (L.foldl (fun a p => setdefault a p.1 p.2) d) k
        = oElse (lookup? d k) (lookup? L k) := by
  induction L with
  | nil => intro d k; simp [lookup?, oElse_none_right]
  | cons p T ih =>
    intro d k
    obtain ⟨k₀, v₀⟩ := p
    have step : List.foldl (fun a p => setdefault a p.1 p.2) d ((k₀, v₀) :: T)
        = List.foldl (fun a p => setdefault a p.1 p.2) (setdefault d k₀ v₀) T := rfl
    rw [step, ih]
    by_cases h : hasKey d k₀ = true
    · have hsd : setdefault d k₀ v₀ = d := by unfold setdefault; rw [if_pos h]
      rw [hsd]
      by_cases hk : k₀ = k
      · subst hk
        cases hd : lookup? d k₀ with
        | none => rw [hasKey_eq_isSome, hd] at h; simp at h
        | some w => simp [lookup?, oElse, hd]
      · simp [lookup?, hk]
    · have hsd : setdefault d k₀ v₀ = d ++ [(k₀, v₀)] := by
        unfold setdefault; rw [if_neg h]
      rw [hsd, lookup_append, oElse_assoc]
      by_cases hk : k₀ = k
      · subst hk; simp [lookup?, oElse]
      · simp [lookup?, hk, oElse]

/-- The `setdefault` loop only ever appends new pairs at the end. -/
theorem foldl_setdefault_append (L : Dict) :
    ∀ d : Dict, ∃ t : Dict,
      L.foldl (fun a p => setdefault a p.1 p.2) d = d ++ t := by
  induction L with
  | nil => intro d; exact ⟨[], by simp⟩
  | cons p T ih =>
    intro d
    obtain ⟨k₀, v₀⟩ := p
    have step : List.foldl (fun a p => setdefault a p.1 p.2) d ((k₀, v₀) :: T)
        = List.foldl (fun a p => setdefault a p.1 p.2) (setdefault d k₀ v₀) T := rfl
    rw [step]
    by_cases h : hasKey d k₀ = true
    · have hsd : setdefault d k₀ v₀ = d := by unfold setdefault; rw [if_pos h]
      rw [hsd]; exact ih d
    · have hsd : setdefault d k₀ v₀ = d ++ [(k₀, v₀)] := by
        unfold setdefault; rw [if_neg h]
      rw [hsd]
      obtain ⟨t, ht⟩ := ih (d ++ [(k₀, v₀)])
      exact ⟨(k₀, v₀) :: t, by rw [ht, List.append_assoc]; rfl⟩

/-- If every key of `L` is already present, the `setdefault` loop is a no-op. -/
theorem foldl_setdefault_noop (L : Dict) :
    ∀ d : Dict, (∀ p ∈ L, hasKey d p.1 = true) →
      L.foldl (fun a p => setdefault a p.1 p.2) d = d := by
  induction L with
  | nil => intro d _; rfl
  | cons p T ih =>
    intro d h
    obtain ⟨k₀, v₀⟩ := p
    have hd : hasKey d k₀ = true := h (k₀, v₀) (List.mem_cons_self ..)
    have step : List.foldl (fun a p => setdefault a p.1 p.2) d ((k₀, v₀) :: T)
        = List.foldl (fun a p => setdefault a p.1 p.2) (setdefault d k₀ v₀) T := rfl
    have hsd : setdefault d k₀ v₀ = d := by unfold setdefault; rw [if_pos hd]
    rw [step, hsd]
    exact ih d (fun q hq => h q (List.mem_cons_of_mem _ hq))

/-! ### Lemmas about predicate-table evaluation and the flag chains -/

theorem tableEval_cons (f : Dict) (c : Dict → Bool) (l : String)
    (T : List ((Dict → Bool) × String)) :
    tableEval ((c, l) :: T) f
      = (if c f then [l] else []) ++ tableEval T f := by
  unfold tableEval
  cases h : c f <;> simp [List.filter_cons, h]

theorem tableEval_nil (f : Dict) : tableEval [] f = [] := rfl

/-- Prepending one conditional singleton to a chain stays a sublist of the
label list with that label prepended. -/
theorem sublist_if_cons (c : Prop) [Decidable c] (a : String) {l L : List String}
    (h : List.Sublist l L) : List.Sublist ((if c then [a] else []) ++ l) (a :: L) := by
  by_cases hc : c
  · simpa [hc] using h.cons₂ a
  · simpa [hc] using h.cons a

theorem engineRed_sublist (f : Dict) :
    List.Sublist (Engine.engineRed f)
      [ "인명피해 가능성", "통증 지속/악화", "병원 방문/예정",
        "상대가 병원/통증 가능성 언급", "상대가 보험 처리 언급/요구",
        "증거 부족(사진/블박 없음)", "손상 범위 불명확 또는 중대 가능" ] := by
  unfold Engine.engineRed
  refine sublist_if_cons _ _ (sublist_if_cons _ _ (sublist_if_cons _ _
    (sublist_if_cons _ _ (sublist_if_cons _ _ (sublist_if_cons _ _ ?_)))))
  by_cases hc : (lookup? f "vehicle_damage" == some "찌그러짐"
      || lookup? f "vehicle_damage" == some "파손"
      || lookup? f "vehicle_damage" == some "불명") = true
  · simp [hc]
  · simp [hc]

theorem engineYellow_sublist (f : Dict) :
    List.Sublist (Engine.engineYellow f)
      [ "센서/ADAS 영향 가능(있음/불명)", "수리비 변동성 큰 차종(수입/전기차)",
        "상대 태도(애매/공격적)로 분쟁 리스크", "충돌 강도 불명", "증거 일부만 확보" ] := by
  unfold Engine.engineYellow
  refine sublist_if_cons _ _ (sublist_if_cons _ _ (sublist_if_cons _ _
    (sublist_if_cons _ _ ?_)))
  by_cases hc : (lookup? f "evidence" == some "일부") = true
  · simp [hc]
  · simp [hc]

/-- A `filterMap` whose function succeeds on every element preserves length. -/
theorem length_filterMap_of_isSome {α β : Type} (g : α → Option β) :
    ∀ l : List α, (∀ a ∈ l, (g a).isSome = true) →
      (l.filterMap g).length = l.length := by
  intro l
  induction l with
  | nil => intro _; rfl
  | cons a t ih =>
    intro h
    cases hg : g a with
    | none =>
      have := h a (List.mem_cons_self ..)
      rw [hg] at this; simp at this
    | some b =>
      simp [List.filterMap_cons, hg,
        ih (fun x hx => h x (List.mem_cons_of_mem _ hx))]

/-! ### Node-level lemmas for the two pipelines -/

theorem engine_bucket_node_eq (s : State) :
    Engine.risk_bucket_node s
      = { s with risk_bucket := specBucket s.flags_red s.flags_yellow } := by
  unfold Engine.risk_bucket_node specBucket
  split_ifs <;> rfl

theorem agent_bucket_node_eq (s : State) :
    Agent.risk_bucket s
      = { s with risk_bucket := specBucket s.flags_red s.flags_yellow } := by
  unfold Agent.risk_bucket specBucket
  split_ifs <;> rfl

theorem run_analysis_none_eq (f : Dict) :
    Engine.run_analysis none f = .ok (engine_run_none f) := rfl

theorem rule_score_node_proj (s : State) :
    (Engine.rule_score_node s).facts = s.facts
    ∧ (Engine.rule_score_node s).flags_red = Engine.engineRed s.facts
    ∧ (Engine.rule_score_node s).flags_yellow = Engine.engineYellow s.facts
    ∧ (Engine.rule_score_node s).risk_score
        = (Engine.engineRed s.facts).length * 100 + (Engine.engineYellow s.facts).length * 10
    ∧ (Engine.rule_score_node s).followup_questions = s.followup_questions :=
  ⟨rfl, rfl, rfl, rfl, rfl⟩

theorem bucket_node_proj (s : State) :
    (Engine.risk_bucket_node s).facts = s.facts
    ∧ (Engine.risk_bucket_node s).flags_red = s.flags_red
    ∧ (Engine.risk_bucket_node s).flags_yellow = s.flags_yellow
    ∧ (Engine.risk_bucket_node s).risk_score = s.risk_score
    ∧ (Engine.risk_bucket_node s).followup_questions = s.followup_questions
    ∧ (Engine.risk_bucket_node s).risk_bucket = specBucket s.flags_red s.flags_yellow := by
  rw [engine_bucket_node_eq]
  exact ⟨rfl, rfl, rfl, rfl, rfl, rfl⟩

theorem engine_explain_none_proj (s : State) :
    (engine_explain_none s).facts = s.facts
    ∧ (engine_explain_none s).flags_red = s.flags_red
    ∧ (engine_explain_none s).flags_yellow = s.flags_yellow
    ∧ (engine_explain_none s).risk_score = s.risk_score
    ∧ (engine_explain_none s).followup_questions = s.followup_questions
    ∧ (engine_explain_none s).risk_bucket = s.risk_bucket
    ∧ (engine_explain_none s).explanation_md = "판단 등급: " ++ s.risk_bucket :=
  ⟨rfl, rfl, rfl, rfl, rfl, rfl, rfl⟩

theorem engine_questions_node_proj (s : State) :
    (Engine.llm_questions_node s).facts = s.facts
    ∧ (Engine.llm_questions_node s).flags_red = s.flags_red
    ∧ (Engine.llm_questions_node s).flags_yellow = s.flags_yellow
    ∧ (Engine.llm_questions_node s).risk_score = s.risk_score
    ∧ (Engine.llm_questions_node s).risk_bucket = s.risk_bucket
    ∧ (Engine.llm_questions_node s).explanation_md = s.explanation_md
    ∧ (Engine.llm_questions_node s).followup_questions
        = ((((s.facts.filter (fun p => p.2 == "불명")).map (fun p => p.1)).take 2).map
            Engine.engineQuestion) :=
  ⟨rfl, rfl, rfl, rfl, rfl, rfl, rfl⟩

theorem engine_questions_stage_proj (s : State) :
    (engine_questions_stage s).facts = s.facts
    ∧ (engine_questions_stage s).flags_red = s.flags_red
    ∧ (engine_questions_stage s).flags_yellow = s.flags_yellow
    ∧ (engine_questions_stage s).risk_score = s.risk_score
    ∧ (engine_questions_stage s).risk_bucket = s.risk_bucket
    ∧ (engine_questions_stage s).explanation_md = s.explanation_md
    ∧ (engine_questions_stage s).followup_questions
        = (if Engine.need_questions_condition s then
            (((s.facts.filter (fun p => p.2 == "불명")).map (fun p => p.1)).take 2).map
              Engine.engineQuestion
           else s.followup_questions) := by
  unfold engine_questions_stage
  by_cases h : Engine.need_questions_condition s
  · rw [if_pos h, if_pos h]
    exact engine_questions_node_proj s
  · rw [if_neg h, if_neg h]
    exact ⟨rfl, rfl, rfl, rfl, rfl, rfl, rfl⟩

theorem compose_node_proj (s : State) :
    (Engine.compose_node s).facts = s.facts
    ∧ (Engine.compose_node s).flags_red = s.flags_red
    ∧ (Engine.compose_node s).flags_yellow = s.flags_yellow
    ∧ (Engine.compose_node s).risk_score = s.risk_score
    ∧ (Engine.compose_node s).risk_bucket = s.risk_bucket
    ∧ (Engine.compose_node s).explanation_md = s.explanation_md
    ∧ (Engine.compose_node s).followup_questions = s.followup_questions :=
  ⟨rfl, rfl, rfl, rfl, rfl, rfl, rfl⟩

theorem engine_none_facts (f : Dict) : (engine_run_none f).facts = f := by
  unfold engine_run_none
  rw [(compose_node_proj _).1, (engine_questions_stage_proj _).1,
    (engine_explain_none_proj _).1, (bucket_node_proj _).1, (rule_score_node_proj _).1]

theorem engine_none_red (f : Dict) :
    (engine_run_none f).flags_red = Engine.engineRed f := by
  unfold engine_run_none
  rw [(compose_node_proj _).2.1, (engine_questions_stage_proj _).2.1,
    (engine_explain_none_proj _).2.1, (bucket_node_proj _).2.1,
    (rule_score_node_proj _).2.1]

theorem engine_none_yellow (f : Dict) :
    (engine_run_none f).flags_yellow = Engine.engineYellow f := by
  unfold engine_run_none
  rw [(compose_node_proj _).2.2.1, (engine_questions_stage_proj _).2.2.1,
    (engine_explain_none_proj _).2.2.1, (bucket_node_proj _).2.2.1,
    (rule_score_node_proj _).2.2.1]

theorem engine_none_score (f : Dict) :
    (engine_run_none f).risk_score
      = (Engine.engineRed f).length * 100 + (Engine.engineYellow f).length * 10 := by
  unfold engine_run_none
  rw [(compose_node_proj _).2.2.2.1, (engine_questions_stage_proj _).2.2.2.1,
    (engine_explain_none_proj _).2.2.2.1, (bucket_node_proj _).2.2.2.1,
    (rule_score_node_proj _).2.2.2.1]

theorem engine_none_bucket (f : Dict) :
    (engine_run_none f).risk_bucket
      = specBucket (Engine.engineRed f) (Engine.engineYellow f) := by
  unfold engine_run_none
  rw [(compose_node_proj _).2.2.2.2.1, (engine_questions_stage_proj _).2.2.2.2.1,
    (engine_explain_none_proj _).2.2.2.2.2.1, (bucket_node_proj _).2.2.2.2.2,
    (rule_score_node_proj _).2.1, (rule_score_node_proj _).2.2.1]

theorem engine_none_explanation (f : Dict) :
    (engine_run_none f).explanation_md
      = "판단 등급: " ++ specBucket (Engine.engineRed f) (Engine.engineYellow f) := by
  unfold engine_run_none
  rw [(compose_node_proj _).2.2.2.2.2.1, (engine_questions_stage_proj _).2.2.2.2.2.1,
    (engine_explain_none_proj _).2.2.2.2.2.2, (bucket_node_proj _).2.2.2.2.2,
    (rule_score_node_proj _).2.1, (rule_score_node_proj _).2.2.1]

theorem engine_none_followup (f : Dict) :
    (engine_run_none f).followup_questions = engine_followup_spec f := by
  unfold engine_run_none engine_followup_spec
  rw [(compose_node_proj _).2.2.2.2.2.2, (engine_questions_stage_proj _).2.2.2.2.2.2]
  have hnq : Engine.need_questions_condition
      (engine_explain_none (Engine.risk_bucket_node (Engine.rule_score_node { facts := f })))
      = ((specBucket (Engine.engineRed f) (Engine.engineYellow f) != "GREEN")
          && !(f.filter (fun p => p.2 == "불명")).isEmpty) := by
    unfold Engine.need_questions_condition
    rw [(engine_explain_none_proj _).2.2.2.2.2.1, (bucket_node_proj _).2.2.2.2.2,
      (rule_score_node_proj _).2.1, (rule_score_node_proj _).2.2.1,
      (engine_explain_none_proj _).1, (bucket_node_proj _).1, (rule_score_node_proj _).1]
  rw [hnq, (engine_explain_none_proj _).1, (bucket_node_proj _).1, (rule_score_node_proj _).1]
  by_cases h : ((specBucket (Engine.engineRed f) (Engine.engineYellow f) != "GREEN")
      && !(f.filter (fun p => p.2 == "불명")).isEmpty)
  · rw [if_pos h, if_pos h]
  · rw [if_neg h, if_neg h]
    rw [(engine_explain_none_proj _).2.2.2.2.1, (bucket_node_proj _).2.2.2.2.1,
      (rule_score_node_proj _).2.2.2.2]

theorem llm_explain_none_eq (s : State) :
    Agent.llm_explain none s = .ok (agent_explain_none s) := rfl

theorem llm_questions_none_ok (s : State) :
    Agent.llm_questions none s = .ok (agent_questions_fallback s) := by
  unfold Agent.llm_questions agent_questions_fallback
  by_cases h : (Agent.targets_of s.facts).isEmpty
  · rw [if_pos h, List.isEmpty_iff.mp h]
    rfl
  · rw [if_neg h]

theorem app_invoke_none_tail (s1 : State) :
    (match Agent.llm_explain none (Agent.risk_bucket (Agent.rule_score s1)) with
      | .error e => .error e
      | .ok s4 =>
        if Agent.need_questions s4 then
          match Agent.llm_questions none s4 with
          | .error e => .error e
          | .ok s5 => .ok (Agent.compose s5)
        else .ok (Agent.compose s4))
      = Except.ok (agent_run_tail s1) := by
  rw [llm_explain_none_eq]
  show (if Agent.need_questions (agent_explain_none (Agent.risk_bucket (Agent.rule_score s1))) then
      match Agent.llm_questions none (agent_explain_none (Agent.risk_bucket (Agent.rule_score s1))) with
      | .error e => .error e
      | .ok s5 => .ok (Agent.compose s5)
    else .ok (Agent.compose (agent_explain_none (Agent.risk_bucket (Agent.rule_score s1)))))
    = Except.ok (agent_run_tail s1)
  unfold agent_run_tail agent_questions_stage
  by_cases h : Agent.need_questions (agent_explain_none (Agent.risk_bucket (Agent.rule_score s1)))
  · rw [if_pos h, if_pos h, llm_questions_none_ok]
  · rw [if_neg h, if_neg h]

theorem app_invoke_none_eq (d : Dict) :
    Agent.app_invoke none d = .ok (agent_run_none d) :=
  app_invoke_none_tail (Agent.normalize_node { facts := d })

theorem rule_score_proj (s : State) :
    (Agent.rule_score s).facts = s.facts
    ∧ (Agent.rule_score s).flags_red = Agent.agentRed s.facts
    ∧ (Agent.rule_score s).flags_yellow = Agent.agentYellow s.facts
    ∧ (Agent.rule_score s).risk_score
        = (Agent.agentRed s.facts).length * 100 + (Agent.agentYellow s.facts).length * 10
    ∧ (Agent.rule_score s).followup_questions = s.followup_questions :=
  ⟨rfl, rfl, rfl, rfl, rfl⟩

theorem agent_bucket_proj (s : State) :
    (Agent.risk_bucket s).facts = s.facts
    ∧ (Agent.risk_bucket s).flags_red = s.flags_red
    ∧ (Agent.risk_bucket s).flags_yellow = s.flags_yellow
    ∧ (Agent.risk_bucket s).risk_score = s.risk_score
    ∧ (Agent.risk_bucket s).followup_questions = s.followup_questions
    ∧ (Agent.risk_bucket s).risk_bucket = specBucket s.flags_red s.flags_yellow := by
  rw [agent_bucket_node_eq]
  exact ⟨rfl, rfl, rfl, rfl, rfl, rfl⟩

theorem agent_explain_none_proj (s : State) :
    (agent_explain_none s).facts = s.facts
    ∧ (agent_explain_none s).flags_red = s.flags_red
    ∧ (agent_explain_none s).flags_yellow = s.flags_yellow
    ∧ (agent_explain_none s).risk_score = s.risk_score
    ∧ (agent_explain_none s).followup_questions = s.followup_questions
    ∧ (agent_explain_none s).risk_bucket = s.risk_bucket :=
  ⟨rfl, rfl, rfl, rfl, rfl, rfl⟩

theorem agent_questions_stage_proj (s : State) :
    (agent_questions_stage s).facts = s.facts
    ∧ (agent_questions_stage s).flags_red = s.flags_red
    ∧ (agent_questions_stage s).flags_yellow = s.flags_yellow
    ∧ (agent_questions_stage s).risk_score = s.risk_score
    ∧ (agent_questions_stage s).risk_bucket = s.risk_bucket
    ∧ (agent_questions_stage s).followup_questions
        = (if Agent.need_questions s then
            (Agent.targets_of s.facts).filterMap (lookup? Agent.qmap)
           else s.followup_questions) := by
  unfold agent_questions_stage
  by_cases h : Agent.need_questions s
  · rw [if_pos h, if_pos h]
    exact ⟨rfl, rfl, rfl, rfl, rfl, rfl⟩
  · rw [if_neg h, if_neg h]
    exact ⟨rfl, rfl, rfl, rfl, rfl, rfl⟩

theorem agent_compose_proj (s : State) :
    (Agent.compose s).facts = s.facts
    ∧ (Agent.compose s).flags_red = s.flags_red
    ∧ (Agent.compose s).flags_yellow = s.flags_yellow
    ∧ (Agent.compose s).risk_score = s.risk_score
    ∧ (Agent.compose s).risk_bucket = s.risk_bucket
    ∧ (Agent.compose s).followup_questions = s.followup_questions :=
  ⟨rfl, rfl, rfl, rfl, rfl, rfl⟩

theorem agent_tail_facts (s1 : State) : (agent_run_tail s1).facts = s1.facts := by
  unfold agent_run_tail
  rw [(agent_compose_proj _).1, (agent_questions_stage_proj _).1,
    (agent_explain_none_proj _).1, (agent_bucket_proj _).1, (rule_score_proj _).1]

theorem agent_tail_red (s1 : State) :
    (agent_run_tail s1).flags_red = Agent.agentRed s1.facts := by
  unfold agent_run_tail
  rw [(agent_compose_proj _).2.1, (agent_questions_stage_proj _).2.1,
    (agent_explain_none_proj _).2.1, (agent_bucket_proj _).2.1, (rule_score_proj _).2.1]

theorem agent_tail_yellow (s1 : State) :
    (agent_run_tail s1).flags_yellow = Agent.agentYellow s1.facts := by
  unfold agent_run_tail
  rw [(agent_compose_proj _).2.2.1, (agent_questions_stage_proj _).2.2.1,
    (agent_explain_none_proj _).2.2.1, (agent_bucket_proj _).2.2.1,
    (rule_score_proj _).2.2.1]

theorem agent_tail_score (s1 : State) :
    (agent_run_tail s1).risk_score
      = (Agent.agentRed s1.facts).length * 100
        + (Agent.agentYellow s1.facts).length * 10 := by
  unfold agent_run_tail
  rw [(agent_compose_proj _).2.2.2.1, (agent_questions_stage_proj _).2.2.2.1,
    (agent_explain_none_proj _).2.2.2.1, (agent_bucket_proj _).2.2.2.1,
    (rule_score_proj _).2.2.2.1]

theorem agent_tail_bucket (s1 : State) :
    (agent_run_tail s1).risk_bucket
      = specBucket (Agent.agentRed s1.facts) (Agent.agentYellow s1.facts) := by
  unfold agent_run_tail
  rw [(agent_compose_proj _).2.2.2.2.1, (agent_questions_stage_proj _).2.2.2.2.1,
    (agent_explain_none_proj _).2.2.2.2.2, (agent_bucket_proj _).2.2.2.2.2,
    (rule_score_proj _).2.1, (rule_score_proj _).2.2.1]

theorem agent_tail_followup (s1 : State) (h0 : s1.followup_questions = []) :
    (agent_run_tail s1).followup_questions = agent_followup_from s1.facts := by
  unfold agent_run_tail agent_followup_from
  rw [(agent_compose_proj _).2.2.2.2.2, (agent_questions_stage_proj _).2.2.2.2.2]
  have hnq : Agent.need_questions
      (agent_explain_none (Agent.risk_bucket (Agent.rule_score s1)))
      = ((specBucket (Agent.agentRed s1.facts) (Agent.agentYellow s1.facts) != "GREEN")
          && !(Agent.unknown_keys s1.facts).isEmpty) := by
    unfold Agent.need_questions
    rw [(agent_explain_none_proj _).2.2.2.2.2, (agent_bucket_proj _).2.2.2.2.2,
      (rule_score_proj _).2.1, (rule_score_proj _).2.2.1,
      (agent_explain_none_proj _).1, (agent_bucket_proj _).1, (rule_score_proj _).1]
  rw [hnq, (agent_explain_none_proj _).1, (agent_bucket_proj _).1, (rule_score_proj _).1]
  by_cases h : ((specBucket (Agent.agentRed s1.facts) (Agent.agentYellow s1.facts) != "GREEN")
      && !(Agent.unknown_keys s1.facts).isEmpty)
  · rw [if_pos h, if_pos h]
  · rw [if_neg h, if_neg h]
    rw [(agent_explain_none_proj _).2.2.2.2.1, (agent_bucket_proj _).2.2.2.2.1,
      (rule_score_proj _).2.2.2.2, h0]

theorem agent_none_followup (d : Dict) :
    (agent_run_none d).followup_questions = agent_followup_spec d := by
  unfold agent_run_none agent_followup_spec
  have hrec : Agent.normalize_node { facts := d } = { facts := Agent.normalize_extract d } := rfl
  rw [hrec, agent_tail_followup { facts := Agent.normalize_extract d } rfl]

/-! ### Further supporting lemmas -/

theorem agentRed_sublist (f : Dict) :
    List.Sublist (Agent.agentRed f)
      [ "인명피해/통증 가능성(‘애매/있음’)", "통증 지속/악화", "병원 방문/예정",
        "상대가 병원/통증 가능성 언급", "상대가 보험 처리 언급/요구",
        "증거 부족(사진/블박 없음)", "손상 범위 불명확 또는 중대 가능" ] := by
  unfold Agent.agentRed
  refine sublist_if_cons _ _ (sublist_if_cons _ _ (sublist_if_cons _ _
    (sublist_if_cons _ _ (sublist_if_cons _ _ (sublist_if_cons _ _ ?_)))))
  by_cases hc : (lookup? f "vehicle_damage" == some "찌그러짐"
      || lookup? f "vehicle_damage" == some "파손"
      || lookup? f "vehicle_damage" == some "불명") = true
  · simp [hc]
  · simp [hc]

theorem agentYellow_sublist (f : Dict) :
    List.Sublist (Agent.agentYellow f)
      [ "센서/ADAS 영향 가능(있음/불명)", "수리비 변동성 큰 차종(수입/전기차)",
        "상대 태도(애매/공격적)로 분쟁 리스크", "충돌 강도 불명", "증거 일부만 확보" ] := by
  unfold Agent.agentYellow
  refine sublist_if_cons _ _ (sublist_if_cons _ _ (sublist_if_cons _ _
    (sublist_if_cons _ _ ?_)))
  by_cases hc : (lookup? f "evidence" == some "일부") = true
  · simp [hc]
  · simp [hc]

/-- Every question target is a priority field, and every priority field has a
canned question, so the fallback table lookup always succeeds on targets. -/
theorem targets_lookup_isSome (nf : Dict) :
    ∀ k ∈ Agent.targets_of nf, (lookup? Agent.qmap k).isSome = true := by
  intro k hk
  have hp : k ∈ Agent.priority := by
    have h1 := List.mem_of_mem_take hk
    exact List.mem_of_mem_filter h1
  have hall : Agent.priority.all (fun k => (lookup? Agent.qmap k).isSome) = true := by decide
  exact List.all_eq_true.mp hall k hp

theorem targets_length_le (nf : Dict) : (Agent.targets_of nf).length ≤ 3 := by
  unfold Agent.targets_of
  exact List.length_take_le ..

/-- Every key of the fixed attribute set is present after normalization. -/
theorem normalize_keys_present (d : Dict) :
    ∀ p ∈ Agent.DEFAULTS, hasKey (Agent.normalize_extract d) p.1 = true := by
  intro p hp
  rw [hasKey_eq_isSome]
  unfold Agent.normalize_extract
  rw [lookup_foldl_setdefault, oElse_isSome]
  have h2 : (lookup? Agent.DEFAULTS p.1).isSome = true :=
    lookup_isSome_of_mem (show (p.1, p.2) ∈ Agent.DEFAULTS from hp)
  rw [h2, Bool.or_true]

theorem isSome_false_eq_none {o : Option (Nat × Nat)} (h : o.isSome = false) :
    o = none := by
  cases o with
  | none => rfl
  | some v => simp at h

/-- A single `re.sub` pass is the identity when the pattern has no match. -/
theorem reSub_noop (p : RPat) (s : List Char) (h : findMatch p s = none) :
    reSub p s = s := by
  unfold reSub subGo
  rw [show findFrom p s (s.length + 1) 0 = findMatch p s from rfl, h]
  exact List.drop_zero s

/-- The whole filter loop is the identity when no pattern matches. -/
theorem foldl_reSub_noop (L : List RPat) (s : List Char)
    (h : ∀ p ∈ L, findMatch p s = none) :
    L.foldl (fun acc q => reSub q acc) s = s := by
  induction L with
  | nil => rfl
  | cons p T ih =>
    have h1 : reSub p s = s := reSub_noop p s (h p (List.mem_cons_self ..))
    rw [List.foldl_cons, h1]
    exact ih (fun q hq => h q (List.mem_cons_of_mem _ hq))

/-- `run_analysis` as explain stage plus deterministic tail. -/
theorem run_analysis_eq (llm : Option LLM) (f : Dict) :
    Engine.run_analysis llm f
      = (match Engine.llm_explain_node llm
            (Engine.risk_bucket_node (Engine.rule_score_node { facts := f })) with
         | .error e => .error e
         | .ok s4 => .ok (Engine.compose_node (engine_questions_stage s4))) := rfl

/-- `app_invoke` as explain stage plus questions stage plus compose. -/
theorem app_invoke_eq (llm : Option LLM) (d : Dict) :
    Agent.app_invoke llm d
      = (match Agent.llm_explain llm
            (Agent.risk_bucket (Agent.rule_score (Agent.normalize_node { facts := d }))) with
         | .error e => .error e
         | .ok s4 =>
           if Agent.need_questions s4 then
             match Agent.llm_questions llm s4 with
             | .error e => .error e
             | .ok s5 => .ok (Agent.compose s5)
           else .ok (Agent.compose s4)) := rfl

theorem llm_explain_node_some (g : LLM) (s : State) :
    Engine.llm_explain_node (some g) s
      = (match g "지시형 결론 없이 상황의 리스크 요소만 설명하라."
            ("상황: " ++ Engine.dictRepr s.facts ++ "\n등급: " ++ s.risk_bucket) with
         | .error e => .error e
         | .ok text =>
           .ok { s with explanation_md := (Engine.stripForbidden text).trim }) := rfl

theorem llm_explain_some (g : LLM) (s : State) :
    Agent.llm_explain (some g) s
      = (match g Agent.explainSystemMsg (Agent.explainHumanMsg s) with
         | .error e => .error e
         | .ok text =>
           .ok { s with explanation_md :=
             (if Agent.contains_imperative text then Agent.safe_strip_imperatives text
              else text).trim }) := rfl

theorem llm_questions_some (g : LLM) (s : State) :
    Agent.llm_questions (some g) s
      = (if (Agent.targets_of s.facts).isEmpty then
           .ok { s with followup_questions := [] }
         else
           match g ("너는 결론을 내리지 않는다. 질문만 만든다.\n- 불명(unknown) 값을 좁히는 질문을 최대 3개.\n- 예/아니오 또는 선택지형으로 짧게.\n- 금액 질문 금지.\n")
               ("unknown_fields=" ++ Agent.listRepr (Agent.targets_of s.facts)
                 ++ "\ncurrent_facts=" ++ Engine.dictRepr s.facts ++ "\n질문을 최대 3개 생성해라.") with
           | .error e => .error e
           | .ok text => .ok { s with followup_questions := Agent.parse_question_lines text }) := rfl

/-- Whatever the explain node returns on success has the same facts, flags
and score as its input. -/
theorem explain_node_preserves (llm : Option LLM) (s s' : State)
    (h : Engine.llm_explain_node llm s = .ok s') :
    s'.risk_score = s.risk_score ∧ s'.flags_red = s.flags_red
      ∧ s'.flags_yellow = s.flags_yellow := by
  cases llm with
  | none =>
    cases h
    exact ⟨rfl, rfl, rfl⟩
  | some g =>
    rw [llm_explain_node_some] at h
    split at h
    · cases h
    · cases h
      exact ⟨rfl, rfl, rfl⟩

theorem agent_explain_preserves (llm : Option LLM) (s s' : State)
    (h : Agent.llm_explain llm s = .ok s') :
    s'.risk_score = s.risk_score ∧ s'.flags_red = s.flags_red
      ∧ s'.flags_yellow = s.flags_yellow := by
  cases llm with
  | none =>
    cases h
    exact ⟨rfl, rfl, rfl⟩
  | some g =>
    rw [llm_explain_some] at h
    split at h
    · cases h
    · cases h
      exact ⟨rfl, rfl, rfl⟩

theorem agent_questions_preserves (llm : Option LLM) (s s' : State)
    (h : Agent.llm_questions llm s = .ok s') :
    s'.risk_score = s.risk_score ∧ s'.flags_red = s.flags_red
      ∧ s'.flags_yellow = s.flags_yellow := by
  cases llm with
  | none =>
    rw [llm_questions_none_ok] at h
    cases h
    exact ⟨rfl, rfl, rfl⟩
  | some g =>
    rw [llm_questions_some] at h
    split at h
    · cases h
      exact ⟨rfl, rfl, rfl⟩
    · split at h
      · cases h
      · cases h
        exact ⟨rfl, rfl, rfl⟩

/-! ### Claim theorems -/

/-- C1: Bucket classification — in both variants the assigned risk bucket is
a pure function of the two flag lists, evaluated in the spec's priority
order: at least one red flag gives RED regardless of the yellow count,
otherwise at least two yellow flags give YELLOW, otherwise GREEN. -/
theorem C1_bucket_classification (s : State) :
    (Engine.risk_bucket_node s).risk_bucket = specBucket s.flags_red s.flags_yellow
    ∧ (Agent.risk_bucket s).risk_bucket = specBucket s.flags_red s.flags_yellow :=
  ⟨(bucket_node_proj s).2.2.2.2.2, (agent_bucket_proj s).2.2.2.2.2⟩

/-- C2: Rule scorer predicate table — in both variants the scorer's flag
lists equal the evaluation, in declared order, of the spec's predicate
tables (7 RED membership tests followed by 5 YELLOW membership tests), each
matching row appending exactly one label; a value outside the declared sets
matches no row, and matching is total (never an error). -/
theorem C2_rule_scorer_table (f : Dict) (s : State) :
    (Engine.rule_score_node s).flags_red = Engine.engineRed s.facts
    ∧ (Engine.rule_score_node s).flags_yellow = Engine.engineYellow s.facts
    ∧ (Agent.rule_score s).flags_red = Agent.agentRed s.facts
    ∧ (Agent.rule_score s).flags_yellow = Agent.agentYellow s.facts
    ∧ Engine.engineRed f = tableEval specRedTable f
    ∧ Engine.engineYellow f = tableEval specYellowTable f
    ∧ Agent.agentRed f = tableEval specAgentRedTable f
    ∧ Agent.agentYellow f = tableEval specYellowTable f := by
  refine ⟨rfl, rfl, rfl, rfl, ?_, ?_, ?_, ?_⟩
  · simp only [specRedTable, tableEval_cons, tableEval_nil, List.append_nil,
      Engine.engineRed]
  · simp only [specYellowTable, tableEval_cons, tableEval_nil, List.append_nil,
      Engine.engineYellow]
  · simp only [specAgentRedTable, tableEval_cons, tableEval_nil, List.append_nil,
      Agent.agentRed]
  · simp only [specYellowTable, tableEval_cons, tableEval_nil, List.append_nil,
      Agent.agentYellow]

/-- C3: Fact normalization completeness — after `normalize_extract` every key
of the fixed attribute set is present; pre-existing entries pass through
unchanged (original bindings win on lookup); absent keys receive the
sentinel of `DEFAULTS` (`"불명"`, empty string for `notes`); keys outside
the fixed set are kept (the result extends the input); and the pipeline's
scorer sees exactly the normalized facts. -/
theorem C3_normalization_completeness (d : Dict) :
    (Agent.DEFAULTS.all (fun p => hasKey (Agent.normalize_extract d) p.1)) = true
    ∧ (∀ k, lookup? (Agent.normalize_extract d) k
        = oElse (lookup? d k) (lookup? Agent.DEFAULTS k))
    ∧ (∃ rest, Agent.normalize_extract d = d ++ rest)
    ∧ (okState (Agent.app_invoke none d)).facts = Agent.normalize_extract d := by
  refine ⟨List.all_eq_true.mpr (normalize_keys_present d), ?_, ?_, ?_⟩
  · intro k
    exact lookup_foldl_setdefault Agent.DEFAULTS d k
  · exact foldl_setdefault_append Agent.DEFAULTS d
  · rw [app_invoke_none_eq]
    show (agent_run_none d).facts = Agent.normalize_extract d
    unfold agent_run_none
    have hrec : Agent.normalize_node { facts := d }
        = { facts := Agent.normalize_extract d } := rfl
    rw [hrec, agent_tail_facts]

/-- C5: Score formula — in both variants the scorer sets
`risk_score = 100·|flags_red| + 10·|flags_yellow|`, every other stage
preserves `risk_score`, and consequently every successful pipeline result
satisfies the formula (for any collaborator). -/
theorem C5_score_formula (llm : Option LLM) (f : Dict) (s : State) :
    (Engine.rule_score_node s).risk_score
        = 100 * (Engine.rule_score_node s).flags_red.length
          + 10 * (Engine.rule_score_node s).flags_yellow.length
    ∧ (Agent.rule_score s).risk_score
        = 100 * (Agent.rule_score s).flags_red.length
          + 10 * (Agent.rule_score s).flags_yellow.length
    ∧ (Engine.risk_bucket_node s).risk_score = s.risk_score
    ∧ (Engine.llm_questions_node s).risk_score = s.risk_score
    ∧ (Engine.compose_node s).risk_score = s.risk_score
    ∧ scoreInvariant (Engine.run_analysis llm f) = true
    ∧ scoreInvariant (Agent.app_invoke llm f) = true := by
  refine ⟨?_, ?_, (bucket_node_proj s).2.2.2.1, (engine_questions_node_proj s).2.2.2.1,
    (compose_node_proj s).2.2.2.1, ?_, ?_⟩
  · show (Engine.engineRed s.facts).length * 100 + (Engine.engineYellow s.facts).length * 10
        = 100 * (Engine.engineRed s.facts).length + 10 * (Engine.engineYellow s.facts).length
    omega
  · show (Agent.agentRed s.facts).length * 100 + (Agent.agentYellow s.facts).length * 10
        = 100 * (Agent.agentRed s.facts).length + 10 * (Agent.agentYellow s.facts).length
    omega
  · rw [run_analysis_eq]
    cases hex : Engine.llm_explain_node llm
        (Engine.risk_bucket_node (Engine.rule_score_node { facts := f })) with
    | error e => rfl
    | ok s4 =>
      obtain ⟨h1, h2, h3⟩ := explain_node_preserves _ _ _ hex
      show scoreInvariant (Except.ok (Engine.compose_node (engine_questions_stage s4))) = true
      simp only [scoreInvariant]
      rw [(compose_node_proj _).2.2.2.1, (engine_questions_stage_proj _).2.2.2.1, h1,
        (compose_node_proj _).2.1, (engine_questions_stage_proj _).2.1, h2,
        (compose_node_proj _).2.2.1, (engine_questions_stage_proj _).2.2.1, h3,
        (bucket_node_proj _).2.2.2.1, (rule_score_node_proj _).2.2.2.1,
        (bucket_node_proj _).2.1, (rule_score_node_proj _).2.1,
        (bucket_node_proj _).2.2.1, (rule_score_node_proj _).2.2.1]
      simp only [beq_iff_eq]
      omega
  · rw [app_invoke_eq]
    cases hex : Agent.llm_explain llm
        (Agent.risk_bucket (Agent.rule_score (Agent.normalize_node { facts := f }))) with
    | error e => rfl
    | ok s4 =>
      obtain ⟨h1, h2, h3⟩ := agent_explain_preserves _ _ _ hex
      show scoreInvariant (if Agent.need_questions s4 then
          match Agent.llm_questions llm s4 with
          | .error e => .error e
          | .ok s5 => .ok (Agent.compose s5)
        else .ok (Agent.compose s4)) = true
      by_cases hq : Agent.need_questions s4
      · rw [if_pos hq]
        cases hq2 : Agent.llm_questions llm s4 with
        | error e => rfl
        | ok s5 =>
          obtain ⟨g1, g2, g3⟩ := agent_questions_preserves _ _ _ hq2
          show scoreInvariant (Except.ok (Agent.compose s5)) = true
          simp only [scoreInvariant]
          rw [(agent_compose_proj _).2.2.2.1, g1, h1,
            (agent_compose_proj _).2.1, g2, h2,
            (agent_compose_proj _).2.2.1, g3, h3,
            (agent_bucket_proj _).2.2.2.1, (rule_score_proj _).2.2.2.1,
            (agent_bucket_proj _).2.1, (rule_score_proj _).2.1,
            (agent_bucket_proj _).2.2.1, (rule_score_proj _).2.2.1]
          simp only [beq_iff_eq]
          omega
      · rw [if_neg hq]
        show scoreInvariant (Except.ok (Agent.compose s4)) = true
        simp only [scoreInvariant]
        rw [(agent_compose_proj _).2.2.2.1, h1,
          (agent_compose_proj _).2.1, h2,
          (agent_compose_proj _).2.2.1, h3,
          (agent_bucket_proj _).2.2.2.1, (rule_score_proj _).2.2.2.1,
          (agent_bucket_proj _).2.1, (rule_score_proj _).2.1,
          (agent_bucket_proj _).2.2.1, (rule_score_proj _).2.2.1]
        simp only [beq_iff_eq]
        omega

/-- C9: Implicit — in `AccidentDecisionEngine` an absent key matches no
predicate (the normalize node is the identity and the scorer uses defaulting
`get`): `run_analysis` on the empty facts dict yields no flags, score 0 and
bucket GREEN; by contrast the all-`"불명"` mapping triggers the
`vehicle_damage` red flag and the `adas_sensor` and `speed` yellow flags. -/
theorem C9_absent_keys_green :
    isOkE (Engine.run_analysis none ([] : Dict)) = true
    ∧ (okState (Engine.run_analysis none [])).flags_red = []
    ∧ (okState (Engine.run_analysis none [])).flags_yellow = []
    ∧ (okState (Engine.run_analysis none [])).risk_score = 0
    ∧ (okState (Engine.run_analysis none [])).risk_bucket = "GREEN"
    ∧ (Engine.rule_score_node { facts := Agent.DEFAULTS }).flags_red
        = ["손상 범위 불명확 또는 중대 가능"]
    ∧ (Engine.rule_score_node { facts := Agent.DEFAULTS }).flags_yellow
        = ["센서/ADAS 영향 가능(있음/불명)", "충돌 강도 불명"] := by
  refine ⟨rfl, ?_, ?_, ?_, ?_, by decide, by decide⟩ <;> decide

/-- C10: Implicit — flag-list bounds and distinctness: in both variants each
red label is appended at most once (list without duplicates, length ≤ 7),
each yellow label at most once (no duplicates, length ≤ 5), hence
`risk_score ≤ 750` and `risk_score` is a multiple of 10. -/
theorem C10_flag_bounds (s : State) :
    (Engine.rule_score_node s).flags_red.Nodup
    ∧ (Engine.rule_score_node s).flags_red.length ≤ 7
    ∧ (Engine.rule_score_node s).flags_yellow.Nodup
    ∧ (Engine.rule_score_node s).flags_yellow.length ≤ 5
    ∧ (Engine.rule_score_node s).risk_score ≤ 750
    ∧ 10 ∣ (Engine.rule_score_node s).risk_score
    ∧ (Agent.rule_score s).flags_red.Nodup
    ∧ (Agent.rule_score s).flags_red.length ≤ 7
    ∧ (Agent.rule_score s).flags_yellow.Nodup
    ∧ (Agent.rule_score s).flags_yellow.length ≤ 5
    ∧ (Agent.rule_score s).risk_score ≤ 750
    ∧ 10 ∣ (Agent.rule_score s).risk_score := by
  have hr := engineRed_sublist s.facts
  have hy := engineYellow_sublist s.facts
  have har := agentRed_sublist s.facts
  have hay := agentYellow_sublist s.facts
  have hrl : (Engine.engineRed s.facts).length ≤ 7 := by
    simpa using hr.length_le
  have hyl : (Engine.engineYellow s.facts).length ≤ 5 := by
    simpa using hy.length_le
  have harl : (Agent.agentRed s.facts).length ≤ 7 := by
    simpa using har.length_le
  have hayl : (Agent.agentYellow s.facts).length ≤ 5 := by
    simpa using hay.length_le
  refine ⟨List.Nodup.sublist hr (by decide), hrl,
    List.Nodup.sublist hy (by decide), hyl, ?_, ?_,
    List.Nodup.sublist har (by decide), harl,
    List.Nodup.sublist hay (by decide), hayl, ?_, ?_⟩
  · show (Engine.engineRed s.facts).length * 100
        + (Engine.engineYellow s.facts).length * 10 ≤ 750
    omega
  · exact ⟨(Engine.engineRed s.facts).length * 10 + (Engine.engineYellow s.facts).length,
      by show (Engine.engineRed s.facts).length * 100
            + (Engine.engineYellow s.facts).length * 10 = _
         ring⟩
  · show (Agent.agentRed s.facts).length * 100
        + (Agent.agentYellow s.facts).length * 10 ≤ 750
    omega
  · exact ⟨(Agent.agentRed s.facts).length * 10 + (Agent.agentYellow s.facts).length,
      by show (Agent.agentRed s.facts).length * 100
            + (Agent.agentYellow s.facts).length * 10 = _
         ring⟩

/-- C8: Normalizer idempotence — normalization of an already-complete
mapping is a no-op, `normalize ∘ normalize = normalize`, and normalizing the
empty mapping yields exactly `DEFAULTS` (every fixed key `"불명"`, `notes`
empty). -/
theorem C8_normalizer_idempotence (d : Dict) :
    Agent.normalize_extract (Agent.normalize_extract d) = Agent.normalize_extract d
    ∧ (Agent.DEFAULTS.all (fun p => hasKey d p.1) = true → Agent.normalize_extract d = d)
    ∧ Agent.normalize_extract ([] : Dict) = Agent.DEFAULTS := by
  refine ⟨?_, ?_, by decide⟩
  · exact foldl_setdefault_noop Agent.DEFAULTS
      (Agent.normalize_extract d) (normalize_keys_present d)
  · intro h
    exact foldl_setdefault_noop Agent.DEFAULTS d (List.all_eq_true.mp h)

/-- Witness for C8 at the concrete complete mapping `DEFAULTS`. -/
theorem C8_normalizer_idempotence_witness :
    (Agent.DEFAULTS.all (fun p => hasKey Agent.DEFAULTS p.1) = true)
    ∧ Agent.normalize_extract Agent.DEFAULTS = Agent.DEFAULTS :=
  ⟨by decide, (C8_normalizer_idempotence Agent.DEFAULTS).2.1 (by decide)⟩

/-- C6 counterexample: a collaborator whose invoke raises is NOT recovered —
the engine propagates the error to the caller instead of falling back. -/
theorem C6_cex :
    Engine.run_analysis (some (fun _ _ => Except.error "LLM timeout")) [("speed", "저속")]
      = Except.error "LLM timeout" := rfl

/-- C6 (amended): when the collaborator is absent (never constructed,
`llm is None`), the explain stage writes the deterministic fallback and the
pipeline completes normally; but when a constructed collaborator's invoke
call raises, `_llm_explain_node` has no handler and the error propagates to
the caller. -/
theorem C6_failure_amended (f : Dict) (e : String) :
    isOkE (Engine.run_analysis none f) = true
    ∧ (okState (Engine.run_analysis none f)).explanation_md
        = "판단 등급: " ++ (okState (Engine.run_analysis none f)).risk_bucket
    ∧ Engine.run_analysis (some (fun _ _ => Except.error e)) f = Except.error e := by
  refine ⟨?_, ?_, ?_⟩
  · rw [run_analysis_none_eq]
    rfl
  · rw [run_analysis_none_eq]
    show (engine_run_none f).explanation_md
        = "판단 등급: " ++ (engine_run_none f).risk_bucket
    rw [engine_none_explanation, engine_none_bucket]
  · rfl

/-- C4 counterexample: a RED-bucket run whose only unknown field is
`accident_type` produces NO followup questions (the priority list omits
`accident_type`), contradicting the claimed 1–3; and the engine variant
produces only 2 questions, in dict order (`speed` first), where the claim
demands up to 3 in priority order (`adas_sensor` first). -/
theorem C4_cex :
    (okState (Agent.app_invoke none qcexAgentFacts)).risk_bucket = "RED"
    ∧ (okState (Agent.app_invoke none qcexAgentFacts)).facts.any
        (fun p => p.2 == "불명") = true
    ∧ (okState (Agent.app_invoke none qcexAgentFacts)).followup_questions = []
    ∧ (okState (Engine.run_analysis none qcexEngineFacts)).risk_bucket = "YELLOW"
    ∧ (okState (Engine.run_analysis none qcexEngineFacts)).followup_questions
        = [Engine.engineQuestion "speed", Engine.engineQuestion "adas_sensor"] := by
  refine ⟨?_, ?_, ?_, ?_, ?_⟩ <;> decide

/-- C4 (amended): with the collaborator unavailable, the study script yields
no questions when the bucket is GREEN or no field is unknown, and otherwise
one canned question per field among the first (up to) 3 unknown fields in
the priority ordering — which excludes `accident_type` and `notes`, so the
list is empty when only those are unknown and has 1–3 entries otherwise;
the engine variant instead asks about the first 2 unknown fields in dict
insertion order. -/
theorem C4_questions_amended (d : Dict) :
    (okState (Agent.app_invoke none d)).followup_questions = agent_followup_spec d
    ∧ (agent_followup_spec d).length
        = (if (specBucket (Agent.agentRed (Agent.normalize_extract d))
                (Agent.agentYellow (Agent.normalize_extract d)) != "GREEN")
              && !(Agent.unknown_keys (Agent.normalize_extract d)).isEmpty
           then (Agent.targets_of (Agent.normalize_extract d)).length else 0)
    ∧ (Agent.targets_of (Agent.normalize_extract d)).length ≤ 3
    ∧ (okState (Engine.run_analysis none d)).followup_questions = engine_followup_spec d
    ∧ (engine_followup_spec d).length ≤ 2 := by
  refine ⟨?_, ?_, targets_length_le _, ?_, ?_⟩
  · rw [app_invoke_none_eq]
    show (agent_run_none d).followup_questions = agent_followup_spec d
    exact agent_none_followup d
  · unfold agent_followup_spec agent_followup_from
    by_cases hg : ((specBucket (Agent.agentRed (Agent.normalize_extract d))
        (Agent.agentYellow (Agent.normalize_extract d)) != "GREEN")
        && !(Agent.unknown_keys (Agent.normalize_extract d)).isEmpty)
    · rw [if_pos hg, if_pos hg]
      exact length_filterMap_of_isSome _ _ (targets_lookup_isSome _)
    · rw [if_neg hg, if_neg hg]
      rfl
  · rw [run_analysis_none_eq]
    show (engine_run_none d).followup_questions = engine_followup_spec d
    exact engine_none_followup d
  · unfold engine_followup_spec
    by_cases hg : ((specBucket (Engine.engineRed d) (Engine.engineYellow d) != "GREEN")
        && !(d.filter (fun p => p.2 == "불명")).isEmpty)
    · rw [if_pos hg, List.length_map]
      exact List.length_take_le ..
    · rw [if_neg hg]
      exact Nat.zero_le 2

/-- C7 counterexample: the sequential per-pattern removal is not a
fixed point — removing `보험처리하세요` from `하세보험처리하세요요`
splices together `하세요`, which matches the already-processed pattern
`\b하세요\b`, so the post-filtered text still contains a forbidden match. -/
theorem C7_cex :
    Engine.stripForbidden "하세보험처리하세요요" = "하세요"
    ∧ Engine.containsForbidden (Engine.stripForbidden "하세보험처리하세요요") = true := by
  refine ⟨?_, ?_⟩ <;> decide

/-- C7 (amended): each pattern is removed in a single left-to-right
non-overlapping pass, in list order; this guarantees a match-free result
only when the removals create no new matches — in particular any text that
contains no match of any forbidden pattern passes through the post-filter
unchanged and therefore remains match-free. -/
theorem C7_postfilter_amended (t : String)
    (h : Engine.containsForbidden t = false) :
    Engine.stripForbidden t = t
    ∧ Engine.containsForbidden (Engine.stripForbidden t) = false := by
  have hall : ∀ p ∈ Engine.forbidden_patterns, findMatch p t.data = none := by
    intro p hp
    unfold Engine.containsForbidden at h
    have h2 := List.any_eq_false.mp h p hp
    exact isSome_false_eq_none (by
      cases hval : (findMatch p t.data).isSome with
      | false => rfl
      | true => exact absurd hval h2)
  have hs : Engine.stripForbidden t = t := by
    unfold Engine.stripForbidden
    rw [foldl_reSub_noop _ _ hall]
  exact ⟨hs, by rw [hs]; exact h⟩

/-- Witness for C7 (amended) at a concrete clean text. -/
theorem C7_postfilter_amended_witness :
    Engine.containsForbidden "테스트 중입니다" = false
    ∧ (Engine.stripForbidden "테스트 중입니다" = "테스트 중입니다"
       ∧ Engine.containsForbidden (Engine.stripForbidden "테스트 중입니다") = false) :=
  ⟨by decide, C7_postfilter_amended "테스트 중입니다" (by decide)⟩

end Chatbot
